import Mathlib

/-!
Shallow embedding of the authorization / ticket-lifecycle core of the
helpdesk-saas repository (armandmorin/helpdesk-saas).

The embedding follows the two backend variants found in the source:

* the monolithic Express API — `src/server/routes/tickets.js`, the user
  routes (`src/unnamed/part_000`) and the auth routes
  (`src/unnamed/part_002`);
* the serverless (Netlify + Supabase) variant — `src/netlify/functions/users.js`.

Records mirror the persisted entities; handlers become pure functions from an
actor, a store and a request to an `Except` result, with the new store made
explicit where the handler writes.  Mongo/Supabase id values are modelled as
`Nat`, timestamps as `Nat`.
-/

namespace Helpdesk

/-- Closed role enum of the system (spec §3; validator lists in the routes). -/
inductive Role
  | superadmin
  | admin
  | agent
  | customer
deriving DecidableEq, Repr

/-- Ticket status enum, from the validator list in
`src/server/routes/tickets.js` (`['open','in_progress','on_hold','pending','resolved','archived']`).
`open` is a Lean keyword, hence `open_`. -/
inductive Status
  | open_
  | in_progress
  | on_hold
  | pending
  | resolved
  | archived
deriving DecidableEq, Repr

/-- Ticket priority enum (`['low','medium','high','urgent']`). -/
inductive Priority
  | low
  | medium
  | high
  | urgent
deriving DecidableEq, Repr

/-- The authenticated request identity (`req.user` populated by the auth
middleware): id, role and organization. -/
structure Actor where
  userId : Nat
  role : Role
  organizationId : Nat
deriving DecidableEq, Repr

/-- A persisted ticket document (fields used by `src/server/routes/tickets.js`
and the tickets table of `src/database-schema.md`). -/
structure Ticket where
  id : Nat
  title : String
  description : String
  category : String
  priority : Priority
  status : Status
  createdBy : Nat
  assignedTo : Option Nat
  organizationId : Nat
  resolvedAt : Option Nat
  updatedAt : Nat
deriving DecidableEq, Repr

/-- A persisted ticket response document (`ticket_responses`). -/
structure TicketResponse where
  id : Nat
  ticketId : Nat
  userId : Nat
  content : String
  isInternal : Bool
  createdAt : Nat
deriving DecidableEq, Repr

/-- A persisted user document of the Express variant (fields used by the user
routes in `src/unnamed/part_000` and `src/unnamed/part_002`). -/
structure User where
  id : Nat
  email : String
  firstName : String
  lastName : String
  role : Role
  organizationId : Nat
  parentUserId : Option Nat
  isActive : Bool
  updatedAt : Nat
deriving DecidableEq, Repr

/-- The persisted state visible to the Express routes. -/
structure Store where
  tickets : List Ticket
  responses : List TicketResponse
  users : List User
deriving DecidableEq, Repr

/-- Outcomes of a handler, keyed by the HTTP status and message the source
returns: `notFound` = 404, `forbidden` = 403 "Not authorized …",
`protectedAccount` = 400 "Cannot delete the main admin account",
`emailTaken` = 400 "User already exists", `serverError` = 500 (thrown). -/
inductive ApiError
  | notFound
  | forbidden
  | protectedAccount
  | emailTaken
  | serverError
deriving DecidableEq, Repr

/-- `Model.findById` on the tickets collection. -/
def findTicket (ts : List Ticket) (tid : Nat) : Option Ticket :=
  ts.find? (fun t => t.id == tid)

/-- `Model.findById` on the users collection. -/
def findUser (us : List User) (uid : Nat) : Option User :=
  us.find? (fun u => u.id == uid)

/-- `ticket.save()` on an existing document: replace the stored document with
the mutated one (documents are keyed by `id`). -/
def saveTicket (s : Store) (t : Ticket) : Store :=
  { s with tickets := s.tickets.map (fun u => if u.id == t.id then t else u) }

/-- `user.save()` on an existing document. -/
def saveUser (s : Store) (u : User) : Store :=
  { s with users := s.users.map (fun v => if v.id == u.id then u else v) }

/-- JS `if (x) obj.f = x` on an optional string request field: the field is
applied when present and truthy (the empty string is falsy in JS). -/
def applyStr (o : Option String) (old : String) : String :=
  match o with
  | some v => if v = "" then old else v
  | none => old

instance : DecidableRel (fun a b : TicketResponse => a.createdAt ≤ b.createdAt) :=
  fun a b => Nat.decLe a.createdAt b.createdAt

instance : DecidableRel (fun a b : Ticket => b.updatedAt ≤ a.updatedAt) :=
  fun a b => Nat.decLe b.updatedAt a.updatedAt

/-- `TicketResponse.find({ ticketId }).sort({ createdAt: 1 })`: the responses
of one ticket, in ascending `createdAt` order (stable sort). -/
def responsesFor (s : Store) (tid : Nat) : List TicketResponse :=
  (s.responses.filter (fun r => r.ticketId == tid)).insertionSort
    (fun a b => a.createdAt ≤ b.createdAt)

/-- The `authorize(...roles)` middleware (second document of
`src/server/server.js`): passes when the authenticated actor's role is among
the required ones, otherwise 403 "Not authorized for this action".  (Its
401 branch for a missing `req.user` cannot arise here: an `Actor` argument
is the already-authenticated identity.) -/
def authorize (roles : List Role) (actor : Actor) : Bool :=
  roles.contains actor.role

/-- GET `/api/tickets` (`src/server/routes/tickets.js`): all tickets of the
actor's organization, restricted to the actor's own tickets for customers,
optionally filtered by a valid status query parameter, sorted by `updatedAt`
descending.  The full-text `$text` search branch is the external search
oracle (spec §1) and is not modelled. -/
def listTickets (actor : Actor) (s : Store) (statusFilter : Option Status) : List Ticket :=
  (s.tickets.filter (fun t =>
    t.organizationId == actor.organizationId
    && (!(actor.role == Role.customer) || t.createdBy == actor.userId)
    && (match statusFilter with
        | none => true
        | some st => t.status == st))).insertionSort
    (fun a b => b.updatedAt ≤ a.updatedAt)

/-- GET `/api/tickets/:id` (`src/server/routes/tickets.js`): 404 when absent;
403 when the ticket is in another organization or the actor is a customer who
did not create it; otherwise the ticket plus its responses, with internal
notes filtered out for customers. -/
def getTicketById (actor : Actor) (s : Store) (tid : Nat) :
    Except ApiError (Ticket × List TicketResponse) :=
  match findTicket s.tickets tid with
  | none => .error .notFound
  | some ticket =>
    if ticket.organizationId ≠ actor.organizationId
        ∨ (actor.role = Role.customer ∧ ticket.createdBy ≠ actor.userId) then
      .error .forbidden
    else
      let responses := responsesFor s tid
      let filteredResponses :=
        if actor.role = Role.customer then
          responses.filter (fun r => !r.isInternal)
        else responses
      .ok (ticket, filteredResponses)

/-- Body of PUT `/api/tickets/:id`; absent fields are `none`.  The validators
reject a present-but-empty `title`/`description` and non-enum
`status`/`priority` values, so present enum fields are already parsed. -/
structure UpdateTicketRequest where
  title : Option String
  description : Option String
  status : Option Status
  priority : Option Priority
  category : Option String
  assignedTo : Option Nat
deriving DecidableEq, Repr

/-- PUT `/api/tickets/:id` (`src/server/routes/tickets.js`): 404 when absent,
403 cross-organization; customers may only touch title/description/category of
their own tickets; agents/admins may set every field.  The `resolvedAt`
handling mirrors the source exactly: the source assigns `ticket.status =
status` first and only then tests `status === 'resolved' && ticket.status !==
'resolved'`, so that branch reads the already-assigned status. -/
def updateTicket (actor : Actor) (s : Store) (tid : Nat)
    (req : UpdateTicketRequest) (now : Nat) : Except ApiError (Ticket × Store) :=
  match findTicket s.tickets tid with
  | none => .error .notFound
  | some ticket =>
    if ticket.organizationId ≠ actor.organizationId then
      .error .forbidden
    else if actor.role = Role.customer then
      if ticket.createdBy ≠ actor.userId then
        .error .forbidden
      else
        let t1 := { ticket with
          title := applyStr req.title ticket.title
          description := applyStr req.description ticket.description
          category := applyStr req.category ticket.category
          updatedAt := now }
        .ok (t1, saveTicket s t1)
    else
      let t1 := { ticket with
        title := applyStr req.title ticket.title
        description := applyStr req.description ticket.description }
      let t2 :=
        match req.status with
        | none => t1
        | some st =>
          let tSet := { t1 with status := st }
          if st = Status.resolved ∧ tSet.status ≠ Status.resolved then
            { tSet with resolvedAt := some now }
          else if st ≠ Status.resolved then
            { tSet with resolvedAt := none }
          else tSet
      let t3 := { t2 with
        priority := match req.priority with
          | some p => p
          | none => t2.priority
        category := applyStr req.category t2.category
        assignedTo := match req.assignedTo with
          | some a => some a
          | none => t2.assignedTo
        updatedAt := now }
      .ok (t3, saveTicket s t3)

/-- POST `/api/tickets/:id/responses` (`src/server/routes/tickets.js`): same
access check as the read path; `isInternal` is honoured only for admin/agent
authors; the response is saved, and a ticket currently `resolved` or
`archived` is reopened (`status = open`, `resolvedAt = null`). -/
def respondToTicket (actor : Actor) (s : Store) (tid : Nat) (content : String)
    (isInternal : Bool) (rid now : Nat) :
    Except ApiError (TicketResponse × Store) :=
  match findTicket s.tickets tid with
  | none => .error .notFound
  | some ticket =>
    if ticket.organizationId ≠ actor.organizationId
        ∨ (actor.role = Role.customer ∧ ticket.createdBy ≠ actor.userId) then
      .error .forbidden
    else
      let isInternalNote :=
        isInternal && (actor.role == Role.admin || actor.role == Role.agent)
      let resp : TicketResponse :=
        { id := rid
          ticketId := ticket.id
          userId := actor.userId
          content := content
          isInternal := isInternalNote
          createdAt := now }
      let s1 := { s with responses := s.responses ++ [resp] }
      let s2 :=
        if ticket.status = Status.resolved ∨ ticket.status = Status.archived then
          saveTicket s1
            { ticket with status := Status.open_, resolvedAt := none, updatedAt := now }
        else s1
      .ok (resp, s2)

/-- DELETE `/api/tickets/:id` (`src/server/routes/tickets.js`): guarded by the
`authorize('admin')` middleware; 404 when absent, 403 cross-organization;
otherwise every response of the ticket is deleted (`deleteMany`) and the
ticket removed. -/
def deleteTicket (actor : Actor) (s : Store) (tid : Nat) : Except ApiError Store :=
  if !authorize [Role.admin] actor then
    .error .forbidden
  else
    match findTicket s.tickets tid with
    | none => .error .notFound
    | some ticket =>
      if ticket.organizationId ≠ actor.organizationId then
        .error .forbidden
      else
        .ok { s with
          responses := s.responses.filter (fun r => r.ticketId != ticket.id)
          tickets := s.tickets.filter (fun t => t.id != ticket.id) }

/-- Body of PUT `/api/users/:id` (`src/unnamed/part_000`); the `role`
validator restricts present values to admin/agent/customer. -/
structure UpdateUserRequest where
  firstName : Option String
  lastName : Option String
  role : Option Role
  isActive : Option Bool
deriving DecidableEq, Repr

/-- GET `/api/users/:id` (`src/unnamed/part_000`): admin-only, 404 when
absent, 403 when the target belongs to another organization. -/
def getUserById (actor : Actor) (s : Store) (uid : Nat) : Except ApiError User :=
  if !authorize [Role.admin] actor then
    .error .forbidden
  else
    match findUser s.users uid with
    | none => .error .notFound
    | some u =>
      if u.organizationId ≠ actor.organizationId then
        .error .forbidden
      else
        .ok u

/-- PUT `/api/users/:id` (`src/unnamed/part_000`): admin-only, 404 when
absent, 403 cross-organization; applies `firstName`/`lastName`/`role` when
present (JS truthiness) and `isActive` when not undefined.  The source has no
root-admin guard on this path. -/
def updateUser (actor : Actor) (s : Store) (uid : Nat)
    (req : UpdateUserRequest) (now : Nat) : Except ApiError (User × Store) :=
  if !authorize [Role.admin] actor then
    .error .forbidden
  else
    match findUser s.users uid with
    | none => .error .notFound
    | some u =>
      if u.organizationId ≠ actor.organizationId then
        .error .forbidden
      else
        let u1 := { u with
          firstName := applyStr req.firstName u.firstName
          lastName := applyStr req.lastName u.lastName
          role := match req.role with
            | some r => r
            | none => u.role
          isActive := match req.isActive with
            | some b => b
            | none => u.isActive
          updatedAt := now }
        .ok (u1, saveUser s u1)

/-- DELETE `/api/users/:id` (`src/unnamed/part_000`): admin-only, 404 when
absent, 403 cross-organization; a user with `parentUserId == null` is the
main admin account and cannot be deleted (400); otherwise the user document
is removed. -/
def deleteUser (actor : Actor) (s : Store) (uid : Nat) : Except ApiError Store :=
  if !authorize [Role.admin] actor then
    .error .forbidden
  else
    match findUser s.users uid with
    | none => .error .notFound
    | some u =>
      if u.organizationId ≠ actor.organizationId then
        .error .forbidden
      else if u.parentUserId = none then
        .error .protectedAccount
      else
        .ok { s with users := s.users.filter (fun v => v.id != u.id) }

/-- Body of POST `/api/auth/subuser` (`src/unnamed/part_002`); the `role`
validator restricts values to agent/customer. -/
structure SubuserRequest where
  email : String
  firstName : String
  lastName : String
  role : Role
deriving DecidableEq, Repr

/-- POST `/api/auth/subuser` (`src/unnamed/part_002`): admin-only; rejects a
duplicate email (400 "User already exists"); otherwise persists a new user in
the actor's organization with `parentUserId = actor`.  The handler performs no
user-count / entitlement check of any kind before saving.  The `isActive`
default comes from the User schema (`src/server/models/User.js` is not in the
corpus); modelled from the spec's `isActive`/`status` active-by-default
reading. -/
def createSubuser (actor : Actor) (s : Store) (req : SubuserRequest)
    (newId now : Nat) : Except ApiError (Nat × Store) :=
  if !authorize [Role.admin] actor then
    .error .forbidden
  else if (s.users.find? (fun u => u.email == req.email)).isSome then
    .error .emailTaken
  else
    let u : User :=
      { id := newId
        email := req.email
        firstName := req.firstName
        lastName := req.lastName
        role := req.role
        organizationId := actor.organizationId
        parentUserId := some actor.userId
        isActive := true
        updatedAt := now }
    .ok (newId, { s with users := s.users ++ [u] })

end Helpdesk

namespace Netlify

/-!
The serverless variant (`src/netlify/functions/users.js`).  After verifying
the bearer token the handler dispatches on path and method; the user-record
shape follows the Supabase schema of `src/database-schema.md` /
`src/unnamed/part_004` (`status` string instead of `isActive`, `created_by`,
`organization_id` nullable, no `parent_user_id`).  Beyond token validity the
handler never relates the authenticated caller to the target row: the
PUT/DELETE/GET-by-id cases take the target id from the path and query by it
alone, with no organization comparison.
-/

/-- A row of the `users` table of the Supabase variant. -/
structure SupaUser where
  id : Nat
  email : String
  firstName : String
  lastName : String
  role : Helpdesk.Role
  organizationId : Option Nat
  createdBy : Option Nat
  status : String
deriving DecidableEq, Repr

/-- A row of the `organizations` table (the fields the users function
touches). -/
structure SupaOrg where
  id : Nat
  maxUsers : Nat
  currentUsers : Nat
deriving DecidableEq, Repr

/-- The persisted state visible to the users function. -/
structure SupaStore where
  users : List SupaUser
  orgs : List SupaOrg
deriving DecidableEq, Repr

/-- The `increment_organization_users` RPC: bump the organization's user
counter. -/
def incrementOrgUsers (s : SupaStore) (oid : Nat) : SupaStore :=
  { s with orgs := s.orgs.map (fun o =>
      if o.id == oid then { o with currentUsers := o.currentUsers + 1 } else o) }

/-- The `decrement_organization_users` RPC. -/
def decrementOrgUsers (s : SupaStore) (oid : Nat) : SupaStore :=
  { s with orgs := s.orgs.map (fun o =>
      if o.id == oid then { o with currentUsers := o.currentUsers - 1 } else o) }

/-- Body of the `create` case of `src/netlify/functions/users.js`. -/
structure NetlifyCreateRequest where
  email : String
  firstName : String
  lastName : String
  role : Option Helpdesk.Role
  organizationId : Option Nat
  createdBy : Option Nat
  status : Option String
deriving DecidableEq, Repr

/-- POST `create` (`src/netlify/functions/users.js`): `auth.admin.createUser`
throws on a duplicate email (surfaced as a 500); otherwise the profile row is
inserted (role defaulting to customer, status to active, creator to the
authenticated caller) and, when an organization id was supplied, its user
counter is incremented afterwards.  No ceiling check against the
organization's `max_users` occurs anywhere on this path. -/
def netlifyCreateUser (authedUserId : Nat) (s : SupaStore)
    (req : NetlifyCreateRequest) (newId : Nat) :
    Except Helpdesk.ApiError (SupaUser × SupaStore) :=
  if (s.users.find? (fun u => u.email == req.email)).isSome then
    .error .serverError
  else
    let u : SupaUser :=
      { id := newId
        email := req.email
        firstName := req.firstName
        lastName := req.lastName
        role := match req.role with
          | some r => r
          | none => Helpdesk.Role.customer
        organizationId := req.organizationId
        createdBy := match req.createdBy with
          | some c => some c
          | none => some authedUserId
        status := match req.status with
          | some st => st
          | none => "active" }
    let s1 := { s with users := s.users ++ [u] }
    let s2 := match req.organizationId with
      | some oid => incrementOrgUsers s1 oid
      | none => s1
    .ok (u, s2)

/-- Body of the PUT case of `src/netlify/functions/users.js`; `undefined`
fields are dropped from the Supabase update payload. -/
structure NetlifyUpdateRequest where
  firstName : Option String
  lastName : Option String
  role : Option Helpdesk.Role
  status : Option String
deriving DecidableEq, Repr

/-- PUT `/:id` (`src/netlify/functions/users.js`): updates the row whose id
matches the path, returning the updated row (`data[0]`; `none` when no row
matched).  The authenticated caller is never compared to the target — there
is no organization or role check on this path. -/
def netlifyUpdateUser (s : SupaStore) (uid : Nat) (req : NetlifyUpdateRequest) :
    Except Helpdesk.ApiError (Option SupaUser × SupaStore) :=
  let upd : SupaUser → SupaUser := fun u =>
    { u with
      firstName := Helpdesk.applyStr req.firstName u.firstName
      lastName := Helpdesk.applyStr req.lastName u.lastName
      role := match req.role with
        | some r => r
        | none => u.role
      status := match req.status with
        | some st => st
        | none => u.status }
  let s1 := { s with users := s.users.map (fun u => if u.id == uid then upd u else u) }
  let returned := (s1.users.find? (fun u => u.id == uid))
  .ok (returned, s1)

/-- DELETE `/:id` (`src/netlify/functions/users.js`): fetches the row only to
learn its organization, deletes it, decrements that organization's counter,
and reports success.  As in the PUT case, the authenticated caller is never
compared to the target. -/
def netlifyDeleteUser (s : SupaStore) (uid : Nat) :
    Except Helpdesk.ApiError SupaStore :=
  let target := s.users.find? (fun u => u.id == uid)
  let s1 := { s with users := s.users.filter (fun u => u.id != uid) }
  let s2 := match target with
    | some u =>
      match u.organizationId with
      | some oid => decrementOrgUsers s1 oid
      | none => s1
    | none => s1
  .ok s2

end Netlify

namespace Fixtures

/-! Concrete records used by the witness and evaluation theorems below. -/

open Helpdesk

/-- An admin of organization 1. -/
def adminActor : Actor := { userId := 1, role := Role.admin, organizationId := 1 }

/-- An agent of organization 1. -/
def agentActor : Actor := { userId := 2, role := Role.agent, organizationId := 1 }

/-- A customer of organization 1. -/
def custActor : Actor := { userId := 3, role := Role.customer, organizationId := 1 }

/-- An open ticket of organization 1 created by the customer. -/
def ticketOpen : Ticket :=
  { id := 1, title := "t1", description := "d1", category := "c1"
    priority := Priority.medium, status := Status.open_
    createdBy := 3, assignedTo := none, organizationId := 1
    resolvedAt := none, updatedAt := 0 }

/-- A resolved ticket of organization 1 created by the customer. -/
def ticketResolved : Ticket :=
  { id := 2, title := "t2", description := "d2", category := "c2"
    priority := Priority.high, status := Status.resolved
    createdBy := 3, assignedTo := some 2, organizationId := 1
    resolvedAt := some 40, updatedAt := 40 }

/-- An internal note on ticket 1, authored by the agent. -/
def respInternal : TicketResponse :=
  { id := 1, ticketId := 1, userId := 2, content := "internal note"
    isInternal := true, createdAt := 5 }

/-- A public response on ticket 1, authored by the customer. -/
def respPublic : TicketResponse :=
  { id := 2, ticketId := 1, userId := 3, content := "public reply"
    isInternal := false, createdAt := 6 }

/-- The root admin of organization 1 (`parentUserId == null`). -/
def rootAdmin : User :=
  { id := 1, email := "root@org1.test", firstName := "Root", lastName := "Admin"
    role := Role.admin, organizationId := 1, parentUserId := none
    isActive := true, updatedAt := 0 }

/-- An agent user of organization 1, provisioned by the root admin. -/
def agentUser : User :=
  { id := 2, email := "agent@org1.test", firstName := "Anna", lastName := "Agent"
    role := Role.agent, organizationId := 1, parentUserId := some 1
    isActive := true, updatedAt := 0 }

/-- The base Express-variant store. -/
def baseStore : Store :=
  { tickets := [ticketOpen, ticketResolved]
    responses := [respInternal, respPublic]
    users := [rootAdmin, agentUser] }

/-- Request that only sets the status to resolved. -/
def reqResolve : UpdateTicketRequest :=
  { title := none, description := none, status := some Status.resolved
    priority := none, category := none, assignedTo := none }

/-- The result of the customer's follow-up response on the resolved ticket 2
(the fallback arm is unreachable: the call succeeds). -/
def respondOut : TicketResponse × Store :=
  match respondToTicket custActor baseStore 2 "follow-up" false 3 50 with
  | .ok p => p
  | .error _ => (respPublic, baseStore)

/-- The store after the admin deletes ticket 1 (the fallback arm is
unreachable: the call succeeds). -/
def deleteOut : Store :=
  match deleteTicket adminActor baseStore 1 with
  | .ok s => s
  | .error _ => baseStore

/-- Request that only deactivates the target user. -/
def reqDeactivate : UpdateUserRequest :=
  { firstName := none, lastName := none, role := none, isActive := some false }

/-- A customer user belonging to organization 2 — an invalid assignee for an
organization-1 ticket under the spec's assignment rule. -/
def otherOrgCustomer : User :=
  { id := 42, email := "cust@org2.test", firstName := "Carl", lastName := "Customer"
    role := Role.customer, organizationId := 2, parentUserId := some 40
    isActive := true, updatedAt := 0 }

/-- The base store extended with the organization-2 customer. -/
def storeAssign : Store :=
  { baseStore with users := baseStore.users ++ [otherOrgCustomer] }

/-- Request that only sets the assignee to user 42. -/
def reqAssign : UpdateTicketRequest :=
  { title := none, description := none, status := none
    priority := none, category := none, assignedTo := some 42 }

/-- An organization sitting exactly at its user ceiling. -/
def quotaOrg : Netlify.SupaOrg := { id := 1, maxUsers := 5, currentUsers := 5 }

/-- Five active users of organization 1 — the ceiling is reached. -/
def quotaUsers : List Netlify.SupaUser :=
  [ { id := 1, email := "u1@org1.test", firstName := "U", lastName := "One"
      role := Role.admin, organizationId := some 1, createdBy := none, status := "active" }
  , { id := 2, email := "u2@org1.test", firstName := "U", lastName := "Two"
      role := Role.agent, organizationId := some 1, createdBy := some 1, status := "active" }
  , { id := 3, email := "u3@org1.test", firstName := "U", lastName := "Three"
      role := Role.agent, organizationId := some 1, createdBy := some 1, status := "active" }
  , { id := 4, email := "u4@org1.test", firstName := "U", lastName := "Four"
      role := Role.customer, organizationId := some 1, createdBy := some 1, status := "active" }
  , { id := 5, email := "u5@org1.test", firstName := "U", lastName := "Five"
      role := Role.customer, organizationId := some 1, createdBy := some 1, status := "active" } ]

/-- The serverless store at the quota boundary. -/
def quotaStore : Netlify.SupaStore := { users := quotaUsers, orgs := [quotaOrg] }

/-- Create request for a sixth user of the full organization. -/
def reqSixth : Netlify.NetlifyCreateRequest :=
  { email := "u6@org1.test", firstName := "U", lastName := "Six"
    role := some Role.agent, organizationId := some 1
    createdBy := some 1, status := none }

/-- Subuser request with a fresh email, used against the Express store. -/
def reqSubuser : SubuserRequest :=
  { email := "new@org1.test", firstName := "New", lastName := "Agent"
    role := Role.agent }

/-- A user of organization 1 as stored by the serverless variant. -/
def isolatedUser : Netlify.SupaUser :=
  { id := 10, email := "victim@org1.test", firstName := "Vic", lastName := "Tim"
    role := Role.customer, organizationId := some 1, createdBy := some 9
    status := "active" }

/-- Serverless store holding only organization 1 and its user. -/
def isolatedStore : Netlify.SupaStore :=
  { users := [isolatedUser], orgs := [{ id := 1, maxUsers := 5, currentUsers := 1 }] }

/-- Update request that promotes the target to admin. -/
def reqEscalate : Netlify.NetlifyUpdateRequest :=
  { firstName := none, lastName := none, role := some Role.admin, status := none }

end Fixtures

open Helpdesk Netlify Fixtures

/-- C2 (code bug): updating the open ticket to `resolved` returns a ticket
whose status is `resolved` but whose `resolvedAt` is still `null`.  The
source assigns `ticket.status = status` before testing `status === 'resolved'
&& ticket.status !== 'resolved'`, so the branch that its own comment says
should set `resolvedAt` can never fire. -/
theorem claim_C2_resolve_leaves_resolvedAt_null :
    Except.map (fun p => (p.1.status, p.1.resolvedAt))
      (updateTicket adminActor baseStore 1 reqResolve 100)
      = Except.ok (Status.resolved, (none : Option Nat)) := by
  rfl

/-- The access-granting shape of `getTicketById` for a customer: on success
the returned responses are exactly the non-internal ones. -/
theorem getTicketById_customer_filter (actor : Actor) (s : Store) (tid : Nat)
    (t : Ticket) (rs : List TicketResponse)
    (hcust : actor.role = Role.customer)
    (hok : getTicketById actor s tid = .ok (t, rs)) :
    rs = (responsesFor s tid).filter (fun r => !r.isInternal) := by
  cases hfind : findTicket s.tickets tid with
  | none =>
    simp only [getTicketById, hfind] at hok
    exact absurd hok (by simp)
  | some ticket =>
    simp only [getTicketById, hfind, hcust, if_true] at hok
    split at hok
    · simp at hok
    · injection hok with h
      injection h with h1 h2
      exact h2.symm

/-- C6: for a customer viewer, the response list returned on ticket read
contains no internal response, and it is a sublist of the full (sorted)
response list — the remaining responses keep their order and content. -/
theorem claim_C6_internal_note_redaction (actor : Actor) (s : Store) (tid : Nat)
    (t : Ticket) (rs : List TicketResponse)
    (hcust : actor.role = Role.customer)
    (hok : getTicketById actor s tid = .ok (t, rs)) :
    rs.Sublist (responsesFor s tid)
    ∧ (∀ r ∈ rs, r.isInternal = false)
    ∧ (∀ r ∈ responsesFor s tid, r.isInternal = false → r ∈ rs) := by
  have hrs := getTicketById_customer_filter actor s tid t rs hcust hok
  subst hrs
  refine ⟨List.filter_sublist _, ?_, ?_⟩
  · intro r hr
    have := (List.mem_filter.mp hr).2
    simpa using this
  · intro r hr hint
    exact List.mem_filter.mpr ⟨hr, by simp [hint]⟩

/-- Witness for C6 at the base store: the customer reads ticket 1 and gets
exactly the public reply back. -/
theorem claim_C6_witness :
    [respPublic].Sublist (responsesFor baseStore 1)
    ∧ (∀ r ∈ [respPublic], r.isInternal = false)
    ∧ (∀ r ∈ responsesFor baseStore 1, r.isInternal = false → r ∈ [respPublic]) :=
  claim_C6_internal_note_redaction custActor baseStore 1 ticketOpen [respPublic]
    rfl (by rfl)

/-- C9: the ticket list (without status filter) contains a ticket exactly when
it is stored, belongs to the actor's organization, and — for a customer —
was created by the actor; admins and agents see every organization ticket. -/
theorem claim_C9_customer_list_scoping (actor : Actor) (s : Store) (t : Ticket) :
    (actor.role = Role.customer →
      (t ∈ listTickets actor s none ↔
        t ∈ s.tickets ∧ t.organizationId = actor.organizationId
          ∧ t.createdBy = actor.userId))
    ∧ (actor.role = Role.admin ∨ actor.role = Role.agent →
      (t ∈ listTickets actor s none ↔
        t ∈ s.tickets ∧ t.organizationId = actor.organizationId)) := by
  constructor
  · intro hrole
    simp [listTickets, List.mem_insertionSort, List.mem_filter, hrole, and_assoc]
  · intro hrole
    have hne : actor.role ≠ Role.customer := by
      rcases hrole with h | h <;> simp [h]
    simp [listTickets, List.mem_insertionSort, List.mem_filter, hne, and_assoc]

/-- Witness for C9: the customer's list over the base store contains their
own open ticket. -/
theorem claim_C9_witness : ticketOpen ∈ listTickets custActor baseStore none :=
  ((claim_C9_customer_list_scoping custActor baseStore ticketOpen).1 rfl).mpr
    (by refine ⟨by simp [baseStore], rfl, rfl⟩)

/-- Replacing (by id) the document that `find?` returns makes `find?` return
the replacement, provided the replacement keeps the id. -/
theorem find?_map_replace (l : List Ticket) (tid : Nat) (t t' : Ticket)
    (hfind : l.find? (fun u => u.id == tid) = some t) (hid : t'.id = t.id) :
    (l.map (fun u => if u.id == t'.id then t' else u)).find?
      (fun u => u.id == tid) = some t' := by
  have htid : t.id = tid := by
    have := List.find?_some hfind
    simpa using this
  induction l with
  | nil => simp at hfind
  | cons a l ih =>
    by_cases h : a.id = tid
    · have hfound : a = t := by
        have : (a :: l).find? (fun u => u.id == tid) = some a := by
          simp [List.find?_cons, h]
        rw [this] at hfind
        exact Option.some.inj hfind
      subst hfound
      simp [List.find?_cons, List.map_cons, hid, h, htid]
    · rw [List.find?_cons_of_neg _ (by simp [h])] at hfind
      rw [List.map_cons]
      have hrepl : (if (a.id == t'.id) = true then t' else a) = a := by
        simp [hid, htid, h]
      rw [hrepl, List.find?_cons_of_neg _ (by simp [h])]
      exact ih hfind

/-- C3: a successful response creation on a ticket whose status is resolved or
archived transitions the stored ticket to open and clears `resolvedAt`,
whatever the responder's role; on a ticket in any other status the stored
ticket is left unchanged. -/
theorem claim_C3_reopen_on_response (actor : Actor) (s : Store) (tid : Nat)
    (content : String) (isInt : Bool) (rid now : Nat) (t : Ticket)
    (resp : TicketResponse) (s' : Store)
    (hfind : findTicket s.tickets tid = some t)
    (hok : respondToTicket actor s tid content isInt rid now = .ok (resp, s')) :
    ((t.status = Status.resolved ∨ t.status = Status.archived) →
      ∃ t', findTicket s'.tickets tid = some t'
        ∧ t'.status = Status.open_ ∧ t'.resolvedAt = none)
    ∧ (¬(t.status = Status.resolved ∨ t.status = Status.archived) →
      findTicket s'.tickets tid = some t) := by
  simp only [respondToTicket, hfind] at hok
  split at hok
  · simp at hok
  · injection hok with h
    injection h with h1 h2
    subst h2
    constructor
    · intro hres
      rw [if_pos hres]
      refine ⟨{ t with status := Status.open_, resolvedAt := none, updatedAt := now }, ?_, rfl, rfl⟩
      exact find?_map_replace s.tickets tid t _ hfind rfl
    · intro hres
      rw [if_neg hres]
      exact hfind

/-- Witness for C3: the customer replies to their resolved ticket 2 in the
base store; afterwards the stored ticket 2 is open with `resolvedAt` null. -/
theorem claim_C3_witness :
    ((ticketResolved.status = Status.resolved ∨ ticketResolved.status = Status.archived) →
      ∃ t', findTicket (respondOut.2).tickets 2 = some t'
        ∧ t'.status = Status.open_ ∧ t'.resolvedAt = none)
    ∧ (¬(ticketResolved.status = Status.resolved ∨ ticketResolved.status = Status.archived) →
      findTicket (respondOut.2).tickets 2 = some ticketResolved) :=
  claim_C3_reopen_on_response custActor baseStore 2 "follow-up" false 3 50
    ticketResolved respondOut.1 respondOut.2 rfl rfl

/-- C7: a customer can update only their own in-organization tickets (anyone
else's are denied), and a successful customer update leaves status, priority,
assignee, resolution timestamp, creator, organization and id untouched — a
requested change to status, priority or assignedTo is silently dropped, not
an error. -/
theorem claim_C7_customer_update_restriction (actor : Actor) (s : Store)
    (tid : Nat) (req : UpdateTicketRequest) (now : Nat) (t : Ticket)
    (hcust : actor.role = Role.customer)
    (hfind : findTicket s.tickets tid = some t) :
    (t.organizationId = actor.organizationId → t.createdBy ≠ actor.userId →
      updateTicket actor s tid req now = .error .forbidden)
    ∧ (∀ t' s', updateTicket actor s tid req now = .ok (t', s') →
      t.createdBy = actor.userId
      ∧ t'.status = t.status ∧ t'.priority = t.priority
      ∧ t'.assignedTo = t.assignedTo ∧ t'.resolvedAt = t.resolvedAt
      ∧ t'.createdBy = t.createdBy ∧ t'.organizationId = t.organizationId
      ∧ t'.id = t.id) := by
  constructor
  · intro horg hown
    simp [updateTicket, hfind, horg, hcust, hown]
  · intro t' s' hok
    simp only [updateTicket, hfind, hcust, if_true] at hok
    split at hok
    · simp at hok
    · split at hok
      · simp at hok
      · next hown =>
        injection hok with h
        injection h with h1 h2
        refine ⟨by simpa using hown, ?_⟩
        subst h1
        exact ⟨rfl, rfl, rfl, rfl, rfl, rfl, rfl⟩

/-- Witness for C7: the customer updates their own open ticket asking for a
resolved status; the request succeeds but every protected field keeps its
value. -/
theorem claim_C7_witness :
    (ticketOpen.organizationId = custActor.organizationId →
      ticketOpen.createdBy ≠ custActor.userId →
      updateTicket custActor baseStore 1 reqResolve 60 = .error .forbidden)
    ∧ (∀ t' s', updateTicket custActor baseStore 1 reqResolve 60 = .ok (t', s') →
      ticketOpen.createdBy = custActor.userId
      ∧ t'.status = ticketOpen.status ∧ t'.priority = ticketOpen.priority
      ∧ t'.assignedTo = ticketOpen.assignedTo ∧ t'.resolvedAt = ticketOpen.resolvedAt
      ∧ t'.createdBy = ticketOpen.createdBy ∧ t'.organizationId = ticketOpen.organizationId
      ∧ t'.id = ticketOpen.id) :=
  claim_C7_customer_update_restriction custActor baseStore 1 reqResolve 60
    ticketOpen rfl rfl

/-- C10: a successful ticket delete removes exactly the tickets with the
target id, exactly the responses attached to that id, and leaves the user
collection untouched. -/
theorem claim_C10_cascade_delete (actor : Actor) (s : Store) (tid : Nat)
    (s' : Store) (hok : deleteTicket actor s tid = .ok s') :
    (∀ t, t ∈ s'.tickets ↔ t ∈ s.tickets ∧ t.id ≠ tid)
    ∧ (∀ r, r ∈ s'.responses ↔ r ∈ s.responses ∧ r.ticketId ≠ tid)
    ∧ s'.users = s.users := by
  cases hfind : findTicket s.tickets tid with
  | none =>
    simp only [deleteTicket, hfind] at hok
    split at hok <;> simp at hok
  | some ticket =>
    simp only [deleteTicket, hfind] at hok
    split at hok
    · simp at hok
    · split at hok
      · simp at hok
      · have htid : ticket.id = tid := by
          have := List.find?_some hfind
          simpa [findTicket] using this
        injection hok with h
        subst h
        refine ⟨?_, ?_, rfl⟩
        · intro t
          simp [List.mem_filter, htid]
        · intro r
          simp [List.mem_filter, htid]

/-- Witness for C10: the admin deletes ticket 1 of the base store; the
resulting store has lost exactly ticket 1 and its responses, and no user. -/
theorem claim_C10_witness :
    (∀ t, t ∈ deleteOut.tickets ↔ t ∈ baseStore.tickets ∧ t.id ≠ 1)
    ∧ (∀ r, r ∈ deleteOut.responses ↔ r ∈ baseStore.responses ∧ r.ticketId ≠ 1)
    ∧ deleteOut.users = baseStore.users :=
  claim_C10_cascade_delete adminActor baseStore 1 deleteOut rfl

/-- C1 (code bug): the serverless users handler never compares the
authenticated caller to the target row — `netlifyUpdateUser` and
`netlifyDeleteUser` take the target id alone and perform no organization
check, so any authenticated actor, in particular one whose `organizationId`
is 2, can update (here: promote to admin) or delete the organization-1 user.
The Express twin enforces the check (`getUserById`/`updateUser`/`deleteUser`
above); the serverless variant omits it. -/
theorem claim_C1_cross_tenant_user_ops_allowed :
    isolatedUser.organizationId = some 1
    ∧ Except.map (fun p => p.1.map (fun u => (u.id, u.role)))
        (netlifyUpdateUser isolatedStore 10 reqEscalate)
        = Except.ok (some (10, Role.admin))
    ∧ netlifyDeleteUser isolatedStore 10
        = Except.ok { users := [], orgs := [{ id := 1, maxUsers := 5, currentUsers := 0 }] } :=
  ⟨rfl, rfl, rfl⟩

/-- C4 counterexample: deactivating the root admin (`parentUserId == null`,
role admin) through PUT `/api/users/:id` succeeds — the update path has no
root-admin guard — so the claim that deactivation always returns
`ProtectedAccount` and leaves the user unchanged is false. -/
theorem claim_C4_counterexample :
    findUser baseStore.users 1 = some rootAdmin
    ∧ rootAdmin.parentUserId = none
    ∧ rootAdmin.role = Role.admin
    ∧ rootAdmin.isActive = true
    ∧ Except.map (fun p => p.1.isActive)
        (updateUser adminActor baseStore 1 reqDeactivate 70) = Except.ok false :=
  ⟨rfl, rfl, rfl, rfl, rfl⟩

/-- C4 amended: the delete operation on the root admin is denied with the
protected-account error (and, returning an error, changes nothing), for every
in-organization admin actor; the deactivation half of the original claim does
not hold — an update with `isActive = false` succeeds and deactivates the
root admin. -/
theorem claim_C4_root_admin_protection_amended (actor : Actor) (s : Store)
    (uid : Nat) (u : User)
    (hfind : findUser s.users uid = some u)
    (hrole : actor.role = Role.admin)
    (horg : u.organizationId = actor.organizationId)
    (hroot : u.parentUserId = none) :
    deleteUser actor s uid = .error .protectedAccount
    ∧ ∀ (req : UpdateUserRequest) (now : Nat), req.isActive = some false →
        Except.map (fun p => p.1.isActive) (updateUser actor s uid req now)
          = Except.ok false := by
  constructor
  · simp [deleteUser, authorize, hrole, hfind, horg, hroot]
  · intro req now hia
    simp [updateUser, authorize, hrole, hfind, horg, hia]
    rfl

/-- Witness for C4 amended at the base store: deleting the root admin is
denied, while deactivating it succeeds. -/
theorem claim_C4_witness :
    deleteUser adminActor baseStore 1 = .error .protectedAccount
    ∧ ∀ (req : UpdateUserRequest) (now : Nat), req.isActive = some false →
        Except.map (fun p => p.1.isActive) (updateUser adminActor baseStore 1 req now)
          = Except.ok false :=
  claim_C4_root_admin_protection_amended adminActor baseStore 1 rootAdmin
    rfl rfl rfl rfl

/-- C8 counterexample: the admin assigns ticket 1 (organization 1) to user 42,
a customer of organization 2; the update succeeds and stores the assignee —
no `InvalidAssignee` check exists on this path. -/
theorem claim_C8_counterexample :
    findTicket storeAssign.tickets 1 = some ticketOpen
    ∧ ticketOpen.organizationId = 1
    ∧ findUser storeAssign.users 42 = some otherOrgCustomer
    ∧ otherOrgCustomer.role = Role.customer
    ∧ otherOrgCustomer.organizationId = 2
    ∧ Except.map (fun p => p.1.assignedTo)
        (updateTicket adminActor storeAssign 1 reqAssign 80) = Except.ok (some 42) :=
  ⟨rfl, rfl, rfl, rfl, rfl, rfl⟩

/-- C8 amended: `assignedTo` is settable only through the non-customer branch
(a customer's requested assignee is silently dropped), and the stored value is
not validated at all — any requested id is accepted, regardless of the
assignee's organization or role. -/
theorem claim_C8_assignment_unvalidated (actor : Actor) (s : Store)
    (tid a : Nat) (req : UpdateTicketRequest) (now : Nat) (t : Ticket)
    (hfind : findTicket s.tickets tid = some t)
    (horg : t.organizationId = actor.organizationId)
    (hass : req.assignedTo = some a) :
    (actor.role ≠ Role.customer →
      Except.map (fun p => p.1.assignedTo) (updateTicket actor s tid req now)
        = Except.ok (some a))
    ∧ (actor.role = Role.customer →
      ∀ t' s', updateTicket actor s tid req now = .ok (t', s') →
        t'.assignedTo = t.assignedTo) := by
  constructor
  · intro hne
    simp [updateTicket, hfind, horg, hne, hass]
    rfl
  · intro hcust t' s' hok
    simp only [updateTicket, hfind, hcust, if_true] at hok
    split at hok
    · simp at hok
    · split at hok
      · simp at hok
      · injection hok with h
        injection h with h1 h2
        subst h1
        rfl

/-- Witness for C8 amended: the agent assigns ticket 1 to the organization-2
customer 42 and the value is stored unvalidated. -/
theorem claim_C8_witness :
    (agentActor.role ≠ Role.customer →
      Except.map (fun p => p.1.assignedTo) (updateTicket agentActor storeAssign 1 reqAssign 80)
        = Except.ok (some 42))
    ∧ (agentActor.role = Role.customer →
      ∀ t' s', updateTicket agentActor storeAssign 1 reqAssign 80 = .ok (t', s') →
        t'.assignedTo = ticketOpen.assignedTo) :=
  claim_C8_assignment_unvalidated agentActor storeAssign 1 42 reqAssign 80
    ticketOpen rfl rfl rfl

/-- C5 counterexample: organization 1 already holds five active users — its
`maxUsers` ceiling — yet creating a sixth user through the serverless create
case succeeds and persists the record; no `QuotaExceeded` failure occurs. -/
theorem claim_C5_counterexample :
    (∀ o ∈ quotaStore.orgs, o.maxUsers ≤ o.currentUsers)
    ∧ (quotaStore.users.filter
        (fun u => u.organizationId == some 1 && u.status == "active")).length = 5
    ∧ ∃ u s', netlifyCreateUser 1 quotaStore reqSixth 6 = .ok (u, s')
        ∧ s'.users = quotaStore.users ++ [u] := by
  refine ⟨by decide, rfl, ?_⟩
  exact ⟨_, _, rfl, rfl⟩

/-- C5 amended: user creation is gated by no entitlement check in either
backend — whenever the requested email is unused (and, for the Express
subuser route, the actor is an admin) the create succeeds and persists the
user, with no condition on the organization's user count or `maxUsers`. -/
theorem claim_C5_no_entitlement_gate
    (authedId : Nat) (sN : Netlify.SupaStore) (reqN : Netlify.NetlifyCreateRequest)
    (newId : Nat)
    (hemailN : sN.users.find? (fun u => u.email == reqN.email) = none)
    (actor : Actor) (sE : Store) (reqE : SubuserRequest) (nid now : Nat)
    (hrole : actor.role = Role.admin)
    (hemailE : sE.users.find? (fun u => u.email == reqE.email) = none) :
    (∃ u s', netlifyCreateUser authedId sN reqN newId = .ok (u, s')
      ∧ s'.users = sN.users ++ [u])
    ∧ (∃ s', createSubuser actor sE reqE nid now = .ok (nid, s')
      ∧ s'.users.length = sE.users.length + 1) := by
  constructor
  · unfold netlifyCreateUser
    rw [hemailN]
    simp only [Option.isSome_none, Bool.false_eq_true, if_false]
    refine ⟨_, _, rfl, ?_⟩
    cases horg : reqN.organizationId with
    | none => simp [horg]
    | some oid => simp [horg, incrementOrgUsers]
  · unfold createSubuser
    rw [hemailE]
    have hr : (!authorize [Role.admin] actor) = false := by
      simp [authorize, hrole]
    simp only [hr, Bool.false_eq_true, if_false, Option.isSome_none]
    exact ⟨_, rfl, by simp⟩

/-- Witness for C5 amended: the sixth-user create on the full organization and
an Express subuser create both go through. -/
theorem claim_C5_witness :
    (∃ u s', netlifyCreateUser 1 quotaStore reqSixth 6 = .ok (u, s')
      ∧ s'.users = quotaStore.users ++ [u])
    ∧ (∃ s', createSubuser adminActor baseStore reqSubuser 7 90 = .ok (7, s')
      ∧ s'.users.length = baseStore.users.length + 1) :=
  claim_C5_no_entitlement_gate 1 quotaStore reqSixth 6 rfl
    adminActor baseStore reqSubuser 7 90 rfl rfl
